import Mathlib

/-!
Verification of the Borderwatch raster preprocessing pipeline
(`src/preprocessing/optical_preprocess.py`, `src/preprocessing/sar_preprocess.py`).

The Python code is shallowly embedded: pure per-pixel computations become
Lean functions on `Nat`/`ℚ`/`ℝ`; external raster operations (band loading,
resampling, mask derivation, clipping, denoising, reprojection) become
abstract function parameters returning `Except` to model possibly-raised
exceptions; the per-granule control flow of the orchestrators is translated
statement by statement.  Definitions come first, then the theorems about
them.
-/

namespace Borderwatch

/-! ## Cloud Mask Engine (optical_preprocess.py, lines 204-230) -/

/-- Embeds `optical_preprocess.py` lines 207-210: the QA60 bit-field cloud
mask.  The code computes
`(qa & (1 << 10)).astype(bool) | (qa & (1 << 11)).astype(bool) | (qa & (1 << 14)).astype(bool)`
per pixel; `astype(bool)` on an integer is the test "nonzero". -/
def qa60_cloud_mask (v : Nat) : Bool :=
  (v &&& (1 <<< 10) != 0) || (v &&& (1 <<< 11) != 0) || (v &&& (1 <<< 14) != 0)

/-- Embeds `optical_preprocess.py` lines 213-215: the SCL classification
cloud mask.  The code computes `np.isin(scl, [3, 8, 9, 10])` per pixel. -/
def scl_cloud_mask (v : Nat) : Bool :=
  [3, 8, 9, 10].contains v

/-- The per-pixel semantics of `stacked_data.where(~mask, np.nan)` that
`optical_preprocess.py` line 229 attempts: a stack maps a band and a pixel
position to `some value` (valid data) or `none` (nodata/NaN); where the mask
is `true` the pixel becomes nodata in every band, elsewhere it is kept.
Line 229 only reaches this semantics after constructing
`xr.DataArray(mask, dims=stacked_data.dims, coords=...)`, which is modelled
by `apply_cloud_mask_xr` below. -/
def apply_cloud_mask {Band Pos : Type} (mask : Pos → Bool)
    (stack : Band → Pos → Option ℚ) : Band → Pos → Option ℚ :=
  fun b p => if mask p then none else stack b p

/-- Dimensionality of the derived cloud mask: the quality raster is
`.squeeze()`d to (y, x) at line 200 and `reproject_match` (line 202)
preserves that 2-D shape, so `qa_scl_ds.values` — and with it the mask of
lines 207-215 — is 2-D. -/
def qa_mask_ndim : Nat := 2

/-- Dimensionality of the stacked data:
`xr.concat(resampled_bands, dim='band')` (line 182) stacks the 2-D bands
along a new 'band' dimension, giving dims ('band', 'y', 'x') — 3 entries —
for any number of bands. -/
def stacked_data_ndim : Nat := 3

/-- Embeds `optical_preprocess.py` line 229 in full:
`stacked_data.where(~xr.DataArray(mask, dims=stacked_data.dims, coords=stacked_data.coords), np.nan)`.
The `xr.DataArray` constructor raises `ValueError` when the data's
dimensionality differs from the number of supplied dimension names; only
when they agree does the per-pixel where-masking run.  The line sits outside
every `try`/`except`, so the error is uncaught. -/
def apply_cloud_mask_xr {Band Pos : Type} (maskNdim stackNdim : Nat)
    (mask : Pos → Bool) (stack : Band → Pos → Option ℚ) :
    Except String (Band → Pos → Option ℚ) :=
  if maskNdim ≠ stackNdim then Except.error "ValueError"
  else Except.ok (apply_cloud_mask mask stack)

/-! ## Band Catalog Resolver: glob patterns (optical_preprocess.py, lines 64-78)

The file-name components of the four glob patterns handed to `glob.glob` are
embedded together with the matching semantics of Python's `glob`/`fnmatch`
on a path component: `*` matches any character sequence, `?` any single
character, `[...]` a bracketed character set (with `a-b` ranges and `!`
negation), and every other character — including `(`, `)` and `|`, which
have no special meaning in glob — matches itself literally. -/

/-- Membership of a character in a glob bracket set: `a-b` spans a range, any
other character stands for itself (fnmatch semantics). -/
def glob_class_match : List Char → Char → Bool
  | a :: '-' :: b :: rest, c => (a ≤ c && c ≤ b) || glob_class_match rest c
  | a :: rest, c => (a == c) || glob_class_match rest c
  | [], _ => false

/-- Splits a bracket expression at its closing `]`: returns the class body and
the rest of the pattern, or `none` when the bracket is unclosed (an unclosed
`[` is a literal in fnmatch). -/
def glob_split_class : List Char → Option (List Char × List Char)
  | [] => none
  | c :: rest =>
    if c = ']' then some ([], rest)
    else
      match glob_split_class rest with
      | some (cls, r) => some (c :: cls, r)
      | none => none

/-- One parsed glob pattern element. -/
inductive GlobTok : Type
  | star : GlobTok
  | any : GlobTok
  | lit : Char → GlobTok
  | cls : Bool → List Char → GlobTok

/-- Turns a bracket class body into a token, honouring a leading `!` as
negation. -/
def glob_mk_cls : List Char → GlobTok
  | '!' :: body => GlobTok.cls true body
  | body => GlobTok.cls false body

/-- Parses a glob pattern into tokens, fnmatch-style: `*`, `?`, bracket sets
(with leading `!` for negation, literal `[` when unclosed), and literal
characters for everything else.  The first argument bounds the recursion
depth; every step consumes at least one input character, so a bound equal to
the input length is exact. -/
def glob_parse_go : Nat → List Char → List GlobTok
  | 0, _ => []
  | _ + 1, [] => []
  | fuel + 1, c :: rest =>
    if c = '*' then GlobTok.star :: glob_parse_go fuel rest
    else if c = '?' then GlobTok.any :: glob_parse_go fuel rest
    else if c = '[' then
      match glob_split_class rest with
      | some (cls, r) => glob_mk_cls cls :: glob_parse_go fuel r
      | none => GlobTok.lit '[' :: glob_parse_go fuel rest
    else GlobTok.lit c :: glob_parse_go fuel rest

/-- Parses a whole glob pattern. -/
def glob_parse (l : List Char) : List GlobTok :=
  glob_parse_go l.length l

/-- Matches the rest of the string after a `*`: the continuation is tried on
every suffix, which is exactly the backtracking reading of `*`. -/
def glob_try_star (f : List Char → Bool) : List Char → Bool
  | [] => f []
  | c :: cs => f (c :: cs) || glob_try_star f cs

/-- Matches a token list against a character list. -/
def glob_tok_match : List GlobTok → List Char → Bool
  | [] => fun cs => cs.isEmpty
  | GlobTok.star :: ps => fun cs => glob_try_star (glob_tok_match ps) cs
  | GlobTok.any :: ps => fun cs =>
    match cs with
    | [] => false
    | _ :: cs2 => glob_tok_match ps cs2
  | GlobTok.lit a :: ps => fun cs =>
    match cs with
    | [] => false
    | c :: cs2 => (a == c) && glob_tok_match ps cs2
  | GlobTok.cls neg body :: ps => fun cs =>
    match cs with
    | [] => false
    | c :: cs2 => (glob_class_match body c != neg) && glob_tok_match ps cs2

/-- Whether a file-name component matches a glob pattern. -/
def glob_match (pat s : String) : Bool :=
  glob_tok_match (glob_parse pat.toList) s.toList

/-- File-name component of the 10 m band pattern, line 65:
`'*_B0[2348].jp2'`. -/
def pattern_10m : String := "*_B0[2348].jp2"

/-- File-name component of the 20 m band pattern, line 67:
`'*_B(0[567]|8A|1[12]).jp2'`. -/
def pattern_20m : String := "*_B(0[567]|8A|1[12]).jp2"

/-- File-name component of the QA60 quality band pattern, line 72:
`'*_QA60.jp2'`. -/
def qa_band_pattern : String := "*_QA60.jp2"

/-- File-name component of the L2A classification band pattern, line 73:
`'*_SCL_20m.jp2'`. -/
def scl_band_pattern : String := "*_SCL_20m.jp2"

/-! ## SAR pipeline numerics (sar_preprocess.py, lines 96-176)

The per-pixel arithmetic of the SAR pipeline is embedded over `ℝ`; a raster
is a flat list of pixel values.  The external non-local-means denoiser and
the reprojection are abstract function parameters — the claims settled here
only exercise paths on which they are skipped or irrelevant. -/

/-- Embeds `sar_preprocess.py` line 163:
`10 * np.log10(np.maximum(x, 1e-5))`, per pixel. -/
noncomputable def to_decibel (x : ℝ) : ℝ :=
  10 * Real.logb 10 (max x (1 / 100000))

/-- Minimum pixel value of a raster (`sar_data.min()`). -/
noncomputable def grid_min : List ℝ → ℝ
  | [] => 0
  | x :: xs => xs.foldl min x

/-- Maximum pixel value of a raster (`sar_data.max()`). -/
noncomputable def grid_max : List ℝ → ℝ
  | [] => 0
  | x :: xs => xs.foldl max x

/-- Embeds `sar_preprocess.py` lines 98-104: if the observed range
`max - min` is positive, rescale to [0,1], denoise, and invert the rescale;
otherwise pass the data through unfiltered.  `denoise` stands for
`skimage.restoration.denoise_nl_means` with the fixed parameters of line
101. -/
noncomputable def speckle_filter (denoise : List ℝ → List ℝ) (g : List ℝ) : List ℝ :=
  let mn := grid_min g
  let mx := grid_max g
  if mx - mn > 0 then
    (denoise (g.map fun x => (x - mn) / (mx - mn))).map fun x => x * (mx - mn) + mn
  else g

/-- Embeds the value-level SAR pipeline of `process_sar_image`
(`sar_preprocess.py` lines 96-176): speckle filtering, then reprojection
(abstract), then the decibel transform — and nothing afterwards: the ROI
clip of lines 171-172 is commented out, so the returned raster keeps the
full reprojected extent. -/
noncomputable def process_sar_grid (denoise reproject : List ℝ → List ℝ)
    (g : List ℝ) : List ℝ :=
  (reproject (speckle_filter denoise g)).map to_decibel

/-! ## Pipeline Orchestrators (both files, granule loops and `__main__`)

Raster operations are abstract components returning `Except E _`: an
`Except.error` models a raised Python exception.  The per-granule control
flow — which exceptions are caught where — is translated statement by
statement from the source.  The filesystem is a list of
(output path, file content) pairs; `Except.error` escaping an orchestrator
models an uncaught exception aborting the whole run. -/

/-- Abstract raster components of the optical pipeline: band loading
(lines 138-145), per-band resampling (lines 163-173), mask derivation from
the quality band (lines 199-223, including its reprojection), mask
application (line 229), ROI clipping (line 240), and the output write of
lines 306-311 (`rio.to_raster` with the `write_crs` fallback).  Every
component may raise, so each returns `Except`; which raises are caught is
decided by the orchestration code below, not here.  (In the real program
the mask application of line 229 always raises — see
`apply_cloud_mask_raises_valueerror`.) -/
structure OpticalComponents (R M E : Type) where
  loadBand : String → Except E R
  resample : R → Except E R
  deriveMask : String → Except E M
  applyMask : M → List R → Except E (List R)
  clip : List R → Except E (List R)
  render : List R → Except E Nat

/-- Abstract raster components of the SAR pipeline: image loading (line 86),
speckle filtering (lines 96-106), reprojection (lines 110-120), decibel
conversion (line 163), and the output write of lines 219-222
(`rio.to_raster` with the `write_crs` fallback).  Each returns `Except`
because each may raise. -/
structure SarComponents (R E : Type) where
  load : String → Except E R
  speckle : R → Except E R
  reproject : R → Except E R
  toDb : R → Except E R
  render : R → Except E Nat

/-- A filesystem: output paths with file contents. -/
abbrev FileSys : Type := List (String × Nat)

/-- One optical granule job: its deterministic output path (line 296), its
spectral band files as (band name, path) pairs, and its QA/SCL band paths. -/
structure OptJob where
  outPath : String
  bands : List (String × String)
  qa : List String

/-- One SAR granule job: deterministic output path (line 207) and input
image path. -/
structure SarJob where
  outPath : String
  inPath : String

/-- Embeds `optical_preprocess.py` lines 133-147: each band is opened
individually; a band whose load raises is dropped (the `except` of line
144), the others are kept with their band names. -/
def loaded_bands {R M E : Type} (c : OpticalComponents R M E)
    (bands : List (String × String)) : List (String × R) :=
  bands.filterMap fun nb =>
    match c.loadBand nb.2 with
    | Except.ok r => some (nb.1, r)
    | Except.error _ => none

/-- Embeds `optical_preprocess.py` line 240: the ROI clip, outside any
`try`/`except`, so its exception propagates; a successful clip yields the
processed stack. -/
def clip_step {R M E : Type} (c : OpticalComponents R M E) (stacked : List R) :
    Except E (Option (List R)) :=
  match c.clip stacked with
  | Except.ok clipped => Except.ok (some clipped)
  | Except.error e => Except.error e

/-- Embeds `optical_preprocess.py` lines 225-241: when a mask was derived it
is applied (line 229, outside any `try`/`except`, so an exception there —
in the real program the `ValueError` of the dims mismatch — propagates),
then the stack is clipped (line 240, equally uncaught). -/
def mask_clip_branch {R M E : Type} (c : OpticalComponents R M E)
    (mask : Option M) (resampled : List R) : Except E (Option (List R)) :=
  match mask with
  | some m =>
    match c.applyMask m resampled with
    | Except.ok stacked => clip_step c stacked
    | Except.error e => Except.error e
  | none => clip_step c resampled

/-- Embeds the per-granule body of `process_s2_image`
(`optical_preprocess.py` lines 120-243): load bands (failures dropped), skip
the granule when none loaded or when the reference band "04" is missing,
resample each band (failures dropped, lines 164-173), skip when none
resampled, derive the cloud mask from the first QA/SCL path with all errors
caught (lines 196-223), then apply the mask when one was derived and clip to
the ROI (lines 225-241) — both outside any `try`/`except`, so their
exceptions propagate.  `Except.ok none` is a skipped granule,
`Except.ok (some _)` a processed one. -/
def process_s2_granule {R M E : Type} (c : OpticalComponents R M E)
    (bands : List (String × String)) (qa : List String) :
    Except E (Option (List R)) :=
  let band_data := loaded_bands c bands
  if band_data.isEmpty then Except.ok none
  else if "04" ∉ band_data.map Prod.fst then Except.ok none
  else
    let resampled := (band_data.map Prod.snd).filterMap fun r => (c.resample r).toOption
    if resampled.isEmpty then Except.ok none
    else
      let mask : Option M :=
        match qa with
        | [] => none
        | q :: _ => (c.deriveMask q).toOption
      mask_clip_branch c mask resampled

/-- Embeds one iteration of the optical `__main__` granule loop
(`optical_preprocess.py` lines 291-314): if the output path already exists
the granule is skipped before anything else runs; otherwise the granule is
processed and, on success, the rendered raster is written (lines 306-311).
Neither the call to `process_s2_image` nor the write is wrapped in
`try`/`except`, so an exception from either aborts the loop. -/
def optical_step {R M E : Type} (c : OpticalComponents R M E)
    (fs : FileSys) (j : OptJob) : Except E FileSys :=
  if j.outPath ∈ fs.map Prod.fst then Except.ok fs
  else
    match process_s2_granule c j.bands j.qa with
    | Except.ok (some stack) =>
      match c.render stack with
      | Except.ok content => Except.ok (fs ++ [(j.outPath, content)])
      | Except.error e => Except.error e
    | Except.ok none => Except.ok fs
    | Except.error e => Except.error e

/-- The optical `__main__` loop over granule jobs; an uncaught exception
aborts the remaining jobs. -/
def optical_main {R M E : Type} (c : OpticalComponents R M E) :
    FileSys → List OptJob → Except E FileSys
  | fs, [] => Except.ok fs
  | fs, j :: rest =>
    match optical_step c fs j with
    | Except.ok fs2 => optical_main c fs2 rest
    | Except.error e => Except.error e

/-- Embeds `process_sar_image` (`sar_preprocess.py` lines 78-182): load,
speckle-filter, reproject — where a reprojection failure is caught and the
unreprojected data used instead (lines 110-120) — and convert to decibels;
no ROI clip (lines 171-172 are commented out).  The whole body sits inside
`try`/`except` (lines 84, 178-182), so every exception is caught and the
granule yields `none`. -/
def process_sar_image {R E : Type} (c : SarComponents R E) (path : String) :
    Option R :=
  let body : Except E R := do
    let g ← c.load path
    let f ← c.speckle g
    let r :=
      match c.reproject f with
      | Except.ok r2 => r2
      | Except.error _ => f
    c.toDb r
  body.toOption

/-- Embeds one iteration of the SAR `__main__` granule loop
(`sar_preprocess.py` lines 203-225): skip when the output path exists,
otherwise process and, on success, write (lines 219-222).  The write is not
wrapped in `try`/`except`, so an exception there aborts the loop. -/
def sar_step {R E : Type} (c : SarComponents R E) (fs : FileSys) (j : SarJob) :
    Except E FileSys :=
  if j.outPath ∈ fs.map Prod.fst then Except.ok fs
  else
    match process_sar_image c j.inPath with
    | some r =>
      match c.render r with
      | Except.ok content => Except.ok (fs ++ [(j.outPath, content)])
      | Except.error e => Except.error e
    | none => Except.ok fs

/-- The SAR `__main__` loop over granule jobs. -/
def sar_main {R E : Type} (c : SarComponents R E) :
    FileSys → List SarJob → Except E FileSys
  | fs, [] => Except.ok fs
  | fs, j :: rest =>
    match sar_step c fs j with
    | Except.ok fs2 => sar_main c fs2 rest
    | Except.error e => Except.error e

/-- Concrete optical components over `Nat` rasters for witnesses: every
operation succeeds. -/
def demo_components : OpticalComponents Nat Nat Unit where
  loadBand := fun _ => Except.ok 0
  resample := fun r => Except.ok r
  deriveMask := fun _ => Except.ok 0
  applyMask := fun _ s => Except.ok s
  clip := fun s => Except.ok s
  render := fun _ => Except.ok 0

/-- Concrete optical components whose clip raises, modelling an empty
intersection with the ROI. -/
def clipfail_components : OpticalComponents Nat Nat Unit :=
  { demo_components with clip := fun _ => Except.error () }

/-- Concrete optical components whose mask application raises, modelling the
`ValueError` that line 229 in fact raises whenever a mask was derived. -/
def maskfail_components : OpticalComponents Nat Nat Unit :=
  { demo_components with applyMask := fun _ _ => Except.error () }

/-- Concrete SAR components over `Nat` rasters for witnesses; the
reprojection fails, exercising the inner recovery path. -/
def demo_sar_components : SarComponents Nat Unit where
  load := fun _ => Except.ok 1
  speckle := fun r => Except.ok r
  reproject := fun _ => Except.error ()
  toDb := fun r => Except.ok r
  render := fun _ => Except.ok 0

/-- Concrete SAR components whose output write raises, modelling a storage
failure in `rio.to_raster` at line 222. -/
def writefail_sar_components : SarComponents Nat Unit :=
  { demo_sar_components with render := fun _ => Except.error () }

/-- A first concrete granule job whose reference band loads. -/
def job1 : OptJob := ⟨ "out1", [("04", "b04")], []⟩

/-- A sibling concrete granule job. -/
def job2 : OptJob := ⟨ "out2", [("04", "b04")], []⟩

/-- A concrete granule job with a quality band, so that a mask is derived
and the mask application runs. -/
def job3 : OptJob := ⟨ "out3", [("04", "b04")], ["qa60"]⟩

/-- A concrete SAR granule job. -/
def sjob1 : SarJob := ⟨ "sout1", "sin1"⟩

/-! ## Theorems -/

private lemma and_two_pow_ne_zero_iff (v i : Nat) :
    (v &&& 2 ^ i != 0) = v.testBit i := by
  rw [Nat.and_two_pow]
  cases h : v.testBit i <;> simp [h, (Nat.two_pow_pos i).ne']

/-- C1: in bit-field cloud-mask mode the derived mask is true exactly when
bit 10, bit 11 or bit 14 of the quality value is set — the logical OR of the
three bit tests — and false whenever none of those bits is set. -/
theorem qa60_cloud_mask_iff (v : Nat) :
    qa60_cloud_mask v = true ↔ (v.testBit 10 ∨ v.testBit 11 ∨ v.testBit 14) := by
  have h10 := and_two_pow_ne_zero_iff v 10
  have h11 := and_two_pow_ne_zero_iff v 11
  have h14 := and_two_pow_ne_zero_iff v 14
  simp only [qa60_cloud_mask, Nat.shiftLeft_eq, one_mul] at *
  rw [h10, h11, h14]
  simp [Bool.or_eq_true, or_assoc]

/-- C2: in classification cloud-mask mode the derived mask is true exactly
when the class code is in {3, 8, 9, 10}, and false for every other value. -/
theorem scl_cloud_mask_iff (v : Nat) :
    scl_cloud_mask v = true ↔ (v = 3 ∨ v = 8 ∨ v = 9 ∨ v = 10) := by
  simp [scl_cloud_mask]

/-- C6 evaluation: in the claim's own scenario — quality value
`0b0100_0000_0000 = 1024` (bit 10 set) at pixel 0 of a 2-pixel grid, `0`
elsewhere, a 3-band stack valid everywhere — line 229 raises `ValueError`
(the 2-D mask is wrapped with the 3-D stack's dims) instead of producing a
masked stack, and the error is uncaught.  The second conjunct records the
per-pixel where-semantics the line intends: nodata at exactly the masked
pixel in every band, valid data elsewhere. -/
theorem apply_cloud_mask_raises_valueerror :
    apply_cloud_mask_xr qa_mask_ndim stacked_data_ndim
      (fun q : Fin 2 => qa60_cloud_mask (if q = 0 then 1024 else 0))
      (fun (_ : Fin 3) (_ : Fin 2) => some (1 : ℚ)) = Except.error "ValueError" ∧
    (∀ b : Fin 3,
      apply_cloud_mask (fun q : Fin 2 => qa60_cloud_mask (if q = 0 then 1024 else 0))
        (fun (_ : Fin 3) (_ : Fin 2) => some (1 : ℚ)) b 0 = none ∧
      apply_cloud_mask (fun q : Fin 2 => qa60_cloud_mask (if q = 0 then 1024 else 0))
        (fun (_ : Fin 3) (_ : Fin 2) => some (1 : ℚ)) b 1 = some 1) := by
  refine ⟨rfl, fun b => ⟨rfl, rfl⟩⟩

/-- C9 evaluation: the 10 m, QA60 and SCL patterns match their provider-named
band files, but the 20 m pattern — written with regex alternation that glob
has no notion of — matches none of B05, B06, B07, B8A, B11, B12; it only
matches a file literally named with parentheses and pipes.  The 20 m bands
are therefore never discovered. -/
theorem band_discovery_20m_never_matches :
    glob_match pattern_10m "T43SGT_20250705T053649_B02.jp2" = true ∧
    glob_match pattern_10m "T43SGT_20250705T053649_B03.jp2" = true ∧
    glob_match pattern_10m "T43SGT_20250705T053649_B04.jp2" = true ∧
    glob_match pattern_10m "T43SGT_20250705T053649_B08.jp2" = true ∧
    glob_match qa_band_pattern "T43SGT_20250705T053649_QA60.jp2" = true ∧
    glob_match scl_band_pattern "T43SGT_20250705T053649_SCL_20m.jp2" = true ∧
    glob_match pattern_20m "T43SGT_20250705T053649_B05.jp2" = false ∧
    glob_match pattern_20m "T43SGT_20250705T053649_B06.jp2" = false ∧
    glob_match pattern_20m "T43SGT_20250705T053649_B07.jp2" = false ∧
    glob_match pattern_20m "T43SGT_20250705T053649_B8A.jp2" = false ∧
    glob_match pattern_20m "T43SGT_20250705T053649_B11.jp2" = false ∧
    glob_match pattern_20m "T43SGT_20250705T053649_B12.jp2" = false ∧
    glob_match pattern_20m "T43SGT_20250705T053649_B(05|8A|11).jp2" = true := by
  decide

private lemma foldl_const {f : ℝ → ℝ → ℝ} {a : ℝ} (hf : f a a = a) :
    ∀ n : ℕ, (List.replicate n a).foldl f a = a := by
  intro n
  induction n with
  | zero => rfl
  | succ k ih => simpa [List.replicate_succ, hf] using ih

private lemma grid_min_replicate (n : ℕ) (a : ℝ) :
    grid_min (List.replicate (n + 1) a) = a := by
  simp [List.replicate_succ, grid_min, foldl_const (min_self a)]

private lemma grid_max_replicate (n : ℕ) (a : ℝ) :
    grid_max (List.replicate (n + 1) a) = a := by
  simp [List.replicate_succ, grid_max, foldl_const (max_self a)]

private lemma logb_ten_of_inv_100000 : Real.logb 10 ((1 : ℝ) / 100000) = -5 := by
  have h5 : ((100000 : ℝ)) = 10 ^ (5 : ℕ) := by norm_num
  rw [one_div, Real.logb, Real.log_inv, h5, Real.log_pow]
  have hlog : Real.log 10 ≠ 0 := by
    have : (1 : ℝ) < 10 := by norm_num
    exact ne_of_gt (Real.log_pos this)
  field_simp

/-- C7: the decibel transform is `10 * log10(max(x, 1e-5))`; it is monotone
non-decreasing for all inputs at least `1e-5`, and input `0` yields the
finite value `-50`. -/
theorem to_decibel_monotone_and_finite_at_zero :
    (∀ a b : ℝ, 1 / 100000 ≤ a → a ≤ b → to_decibel a ≤ to_decibel b) ∧
    to_decibel 0 = -50 := by
  constructor
  · intro a b ha hab
    unfold to_decibel
    have hpos : (0 : ℝ) < max a (1 / 100000) := by
      have : (0 : ℝ) < 1 / 100000 := by norm_num
      exact lt_of_lt_of_le this (le_max_right _ _)
    have hle : max a (1 / 100000) ≤ max b (1 / 100000) :=
      max_le_max hab le_rfl
    have hb10 : (1 : ℝ) < 10 := by norm_num
    have := Real.logb_le_logb_of_le hb10 hpos hle
    linarith
  · unfold to_decibel
    rw [max_eq_right (by norm_num : (0 : ℝ) ≤ 1 / 100000), logb_ten_of_inv_100000]
    norm_num

/-- Witness for C7 at the inputs 1 and 2. -/
theorem to_decibel_monotone_witness :
    (1 : ℝ) / 100000 ≤ 1 ∧ (1 : ℝ) ≤ 2 ∧ to_decibel 1 ≤ to_decibel 2 ∧ to_decibel 0 = -50 :=
  ⟨by norm_num, by norm_num,
    to_decibel_monotone_and_finite_at_zero.1 1 2 (by norm_num) (by norm_num),
    to_decibel_monotone_and_finite_at_zero.2⟩

private lemma speckle_filter_skip {denoise : List ℝ → List ℝ} {g : List ℝ}
    (h : ¬ grid_max g - grid_min g > 0) : speckle_filter denoise g = g := by
  unfold speckle_filter
  rw [if_neg h]

private lemma speckle_filter_replicate (denoise : List ℝ → List ℝ) (n : ℕ) :
    speckle_filter denoise (List.replicate n (5 : ℝ)) = List.replicate n 5 := by
  cases n with
  | zero => simp [speckle_filter, grid_min, grid_max]
  | succ k =>
    apply speckle_filter_skip
    rw [grid_min_replicate, grid_max_replicate]
    norm_num

private lemma to_decibel_five : to_decibel 5 = 10 * Real.logb 10 5 := by
  unfold to_decibel
  rw [max_eq_left (by norm_num : (1 : ℝ) / 100000 ≤ 5)]

/-- C8: on a raster whose observed range is degenerate the speckle filter
skips rescaling and denoising and returns the raster unchanged; in
particular a raster constant at 5.0 passes through unchanged, and its
decibel transform is `10 * log10 5` at every pixel. -/
theorem speckle_filter_degenerate_skip :
    (∀ (denoise : List ℝ → List ℝ) (g : List ℝ),
      ¬ grid_max g - grid_min g > 0 → speckle_filter denoise g = g) ∧
    (∀ (denoise : List ℝ → List ℝ) (n : ℕ),
      speckle_filter denoise (List.replicate n (5 : ℝ)) = List.replicate n 5 ∧
      (speckle_filter denoise (List.replicate n (5 : ℝ))).map to_decibel =
        List.replicate n (10 * Real.logb 10 5)) := by
  refine ⟨fun denoise g h => speckle_filter_skip h, ?_⟩
  intro denoise n
  refine ⟨speckle_filter_replicate denoise n, ?_⟩
  rw [speckle_filter_replicate denoise n, List.map_replicate, to_decibel_five]

/-- Witness for C8: a two-pixel raster constant at 2.0 is degenerate and
passes through; the constant 5.0 raster of the scenario also passes
through. -/
theorem speckle_filter_degenerate_skip_witness :
    speckle_filter id [(2 : ℝ), 2] = [2, 2] ∧
    speckle_filter id (List.replicate 3 (5 : ℝ)) = List.replicate 3 5 :=
  ⟨speckle_filter_degenerate_skip.1 id [2, 2]
      (by rw [show ([(2 : ℝ), 2] : List ℝ) = List.replicate 2 2 from rfl,
              grid_min_replicate, grid_max_replicate]; norm_num),
   (speckle_filter_degenerate_skip.2 id 3).1⟩

/-- C3 evaluation on the radar variant: a four-pixel raster constant at 5.0,
processed with identity denoise and reprojection, comes back at its full
four-pixel extent with the valid value `10 * log10 5` at every pixel —
including pixels outside any ROI — because the ROI clip call is commented
out of `process_sar_image`. -/
theorem process_sar_grid_is_unclipped :
    (process_sar_grid id id (List.replicate 4 (5 : ℝ))).length = 4 ∧
    (process_sar_grid id id (List.replicate 4 (5 : ℝ)))[3]? =
      some (10 * Real.logb 10 5) := by
  have hid : process_sar_grid id id (List.replicate 4 (5 : ℝ)) =
      List.replicate 4 (10 * Real.logb 10 5) := by
    unfold process_sar_grid
    rw [id_eq, speckle_filter_replicate id 4, List.map_replicate, to_decibel_five]
  rw [hid]
  constructor
  · simp
  · rfl

/-- C10: when the 10 m reference red band "04" is not among the successfully
loaded bands, the optical pipeline skips the whole granule and produces no
output, however the other spectral bands fared. -/
theorem process_s2_granule_skips_without_reference {R M E : Type}
    (c : OpticalComponents R M E) (bands : List (String × String))
    (qa : List String)
    (h : "04" ∉ (loaded_bands c bands).map Prod.fst) :
    process_s2_granule c bands qa = Except.ok none := by
  unfold process_s2_granule
  by_cases he : (loaded_bands c bands).isEmpty
  · rw [if_pos he]
  · rw [if_neg he, if_pos h]

/-- Witness for C10: band "02" loads successfully but "04" is absent, and
the granule yields no output. -/
theorem process_s2_granule_skips_without_reference_witness :
    "04" ∉ (loaded_bands demo_components [("02", "b02")]).map Prod.fst ∧
    process_s2_granule demo_components [("02", "b02")] [] = Except.ok none :=
  ⟨by decide,
   process_s2_granule_skips_without_reference demo_components [("02", "b02")] []
     (by decide)⟩

/-- C5: when the deterministic output path already exists, one loop
iteration of either orchestrator returns the filesystem unchanged — the
existing file keeps its content — and this holds for arbitrary components,
so no processing component is invoked. -/
theorem existing_output_skips_processing {R M E R2 E2 : Type}
    (c : OpticalComponents R M E) (c2 : SarComponents R2 E2)
    (fs : FileSys) (oj : OptJob) (sj : SarJob)
    (h1 : oj.outPath ∈ fs.map Prod.fst) (h2 : sj.outPath ∈ fs.map Prod.fst) :
    optical_step c fs oj = Except.ok fs ∧ sar_step c2 fs sj = Except.ok fs := by
  constructor
  · unfold optical_step
    rw [if_pos h1]
  · unfold sar_step
    rw [if_pos h2]

/-- Witness for C5: with both files already on disk, both steps return the
filesystem — contents included — untouched, even for components that would
fail if invoked. -/
theorem existing_output_skips_processing_witness :
    optical_step clipfail_components [("out1", 7), ("sout1", 9)] job1 =
      Except.ok [("out1", 7), ("sout1", 9)] ∧
    sar_step demo_sar_components [("out1", 7), ("sout1", 9)] sjob1 =
      Except.ok [("out1", 7), ("sout1", 9)] :=
  existing_output_skips_processing clipfail_components demo_sar_components
    [("out1", 7), ("sout1", 9)] job1 sjob1 (by decide) (by decide)

/-- Counterexample to C4: a clip exception (e.g. an empty intersection with
the ROI) in the first granule is not caught anywhere — the optical
orchestrator run aborts with the error, the sibling granule is never
processed, and no filesystem state survives. -/
theorem optical_clip_error_escapes :
    optical_main clipfail_components [] [job1, job2] = Except.error () := by
  rfl

private lemma clip_step_ok {R M E : Type} (c : OpticalComponents R M E)
    (hclip : ∀ s, ∃ r, c.clip s = Except.ok r) (stacked : List R) :
    ∃ o, clip_step c stacked = Except.ok o := by
  obtain ⟨r, hr⟩ := hclip stacked
  exact ⟨some r, by unfold clip_step; rw [hr]⟩

private lemma mask_clip_branch_ok {R M E : Type} (c : OpticalComponents R M E)
    (happly : ∀ m s, ∃ r, c.applyMask m s = Except.ok r)
    (hclip : ∀ s, ∃ r, c.clip s = Except.ok r)
    (mask : Option M) (resampled : List R) :
    ∃ o, mask_clip_branch c mask resampled = Except.ok o := by
  cases mask with
  | none => exact clip_step_ok c hclip resampled
  | some m =>
    obtain ⟨stacked, hs⟩ := happly m resampled
    obtain ⟨o, ho⟩ := clip_step_ok c hclip stacked
    exact ⟨o, by simp [mask_clip_branch, hs, ho]⟩

private lemma process_s2_granule_ok {R M E : Type} (c : OpticalComponents R M E)
    (happly : ∀ m s, ∃ r, c.applyMask m s = Except.ok r)
    (hclip : ∀ s, ∃ r, c.clip s = Except.ok r)
    (bands : List (String × String)) (qa : List String) :
    ∃ o, process_s2_granule c bands qa = Except.ok o := by
  unfold process_s2_granule
  by_cases he : (loaded_bands c bands).isEmpty
  · exact ⟨none, by rw [if_pos he]⟩
  · rw [if_neg he]
    by_cases h04 : "04" ∉ (loaded_bands c bands).map Prod.fst
    · exact ⟨none, by rw [if_pos h04]⟩
    · rw [if_neg h04]
      by_cases hr :
          (((loaded_bands c bands).map Prod.snd).filterMap
            fun r => (c.resample r).toOption).isEmpty
      · exact ⟨none, by rw [if_pos hr]⟩
      · rw [if_neg hr]
        exact mask_clip_branch_ok c happly hclip _ _

private lemma optical_step_ok {R M E : Type} (c : OpticalComponents R M E)
    (happly : ∀ m s, ∃ r, c.applyMask m s = Except.ok r)
    (hclip : ∀ s, ∃ r, c.clip s = Except.ok r)
    (hwrite : ∀ s, ∃ n, c.render s = Except.ok n) (fs : FileSys) (j : OptJob) :
    ∃ fs2, optical_step c fs j = Except.ok fs2 := by
  unfold optical_step
  by_cases h : j.outPath ∈ fs.map Prod.fst
  · exact ⟨fs, by rw [if_pos h]⟩
  · rw [if_neg h]
    obtain ⟨o, ho⟩ := process_s2_granule_ok c happly hclip j.bands j.qa
    rw [ho]
    cases o with
    | none => exact ⟨fs, rfl⟩
    | some stack =>
      obtain ⟨n, hn⟩ := hwrite stack
      exact ⟨fs ++ [(j.outPath, n)], by simp [hn]⟩

private lemma sar_step_ok {R E : Type} (c : SarComponents R E)
    (hwrite : ∀ r, ∃ n, c.render r = Except.ok n) (fs : FileSys) (j : SarJob) :
    ∃ fs2, sar_step c fs j = Except.ok fs2 := by
  unfold sar_step
  by_cases h : j.outPath ∈ fs.map Prod.fst
  · exact ⟨fs, by rw [if_pos h]⟩
  · rw [if_neg h]
    cases process_sar_image c j.inPath with
    | none => exact ⟨fs, rfl⟩
    | some r =>
      obtain ⟨n, hn⟩ := hwrite r
      exact ⟨fs ++ [(j.outPath, n)], by simp [hn]⟩

/-- C4 amended: exception containment only covers part of the pipeline.  The
radar variant catches everything raised inside `process_sar_image` (load,
speckle filtering, reprojection, decibel conversion), and the optical
variant catches band-load, per-band resample and mask-derivation errors —
so with non-raising mask application, clip and writes, both orchestrator
loops always finish ok (first two conjuncts).  But the optical mask
application (line 229) and ROI clip (line 240) and the output write of
either variant (optical lines 306-311, sar lines 219-222) run outside any
`try`/`except`: the last two conjuncts show a mask-application exception
and a radar write exception escaping their orchestrators, and the
counterexample shows the same for an optical clip exception. -/
theorem granule_errors_contained {R M E R2 E2 : Type}
    (c : OpticalComponents R M E)
    (happly : ∀ m s, ∃ r, c.applyMask m s = Except.ok r)
    (hclip : ∀ s, ∃ r, c.clip s = Except.ok r)
    (hwrite : ∀ s, ∃ n, c.render s = Except.ok n)
    (fs : FileSys) (jobs : List OptJob)
    (c2 : SarComponents R2 E2)
    (hwrite2 : ∀ r, ∃ n, c2.render r = Except.ok n)
    (sjobs : List SarJob) :
    (∃ fs2, optical_main c fs jobs = Except.ok fs2) ∧
    (∃ fs3, sar_main c2 fs sjobs = Except.ok fs3) ∧
    optical_main maskfail_components [] [job3] = Except.error () ∧
    sar_main writefail_sar_components [] [sjob1] = Except.error () := by
  refine ⟨?_, ?_, rfl, rfl⟩
  · induction jobs generalizing fs with
    | nil => exact ⟨fs, rfl⟩
    | cons j rest ih =>
      obtain ⟨fs2, h2⟩ := optical_step_ok c happly hclip hwrite fs j
      obtain ⟨fs3, h3⟩ := ih fs2
      exact ⟨fs3, by unfold optical_main; rw [h2]; exact h3⟩
  · induction sjobs generalizing fs with
    | nil => exact ⟨fs, rfl⟩
    | cons j rest ih =>
      obtain ⟨fs2, h2⟩ := sar_step_ok c2 hwrite2 fs j
      obtain ⟨fs3, h3⟩ := ih fs2
      exact ⟨fs3, by unfold sar_main; rw [h2]; exact h3⟩

/-- Witness for the amended C4: with optical components whose mask
application, clip and write succeed, and a SAR run whose reprojection fails
(exercising the caught-error path) but whose write succeeds, both
orchestrators finish with an ok filesystem; the escaping mask-application
and radar-write errors are exhibited concretely. -/
theorem granule_errors_contained_witness :
    (∃ fs2, optical_main demo_components [] [job1, job2] = Except.ok fs2) ∧
    (∃ fs3, sar_main demo_sar_components [] [sjob1] = Except.ok fs3) ∧
    optical_main maskfail_components [] [job3] = Except.error () ∧
    sar_main writefail_sar_components [] [sjob1] = Except.error () :=
  granule_errors_contained demo_components (fun _ s => ⟨s, rfl⟩)
    (fun s => ⟨s, rfl⟩) (fun _ => ⟨0, rfl⟩) [] [job1, job2]
    demo_sar_components (fun _ => ⟨0, rfl⟩) [sjob1]

end Borderwatch
